import Mathlib

/-!
Verification of the `house_of_voi` slot-machine contract
(`src/contract/contract.py`), as a shallow embedding in Lean 4.

Bytes are modelled as `List Nat` (byte values) and reel/grid symbols as
`List Char`.  AVM `uint64` arithmetic panics on overflow, so every addition
or multiplication that the contract performs on box values is guarded by an
explicit `< 2^64` check; an assertion failure anywhere in a call makes the
whole call return `none` (the host's all-or-nothing transaction boundary).
External primitives of the host (the transaction sender, the attached
payment, the current round, `op.sha256` and `op.Block.blk_seed`) are fields
of an explicit environment `Env`.
-/

namespace SlotMachine

/-- `2^64`, the exclusion bound of AVM `uint64` values. -/
def U64 : Nat := 2 ^ 64

/-- `MAX_CLAIM_ROUND_DELTA` from `contract.py` line 51 (defined there and,
notably, never used by any subroutine). -/
def MAX_CLAIM_ROUND_DELTA : Nat := 1000

/-- Big-endian 8-byte encoding of a `uint64`, as produced by
`arc4.UInt64(...).bytes`. -/
def u64be (n : Nat) : List Nat :=
  [n / 256 ^ 7 % 256, n / 256 ^ 6 % 256, n / 256 ^ 5 % 256, n / 256 ^ 4 % 256,
   n / 256 ^ 3 % 256, n / 256 ^ 2 % 256, n / 256 % 256, n % 256]

/-- Big-endian interpretation of a byte list as a natural number
(`arc4.UInt64.from_bytes`). -/
def bytesBE (l : List Nat) : Nat :=
  l.foldl (fun a b => a * 256 + b) 0

/-- The last 8 bytes of a byte string (`bytes[-8:]`), interpreted big-endian. -/
def u64FromLast8 (l : List Nat) : Nat :=
  bytesBE (l.drop (l.length - 8))

/-- Python slice `l[a:b]`. -/
def pySlice (l : List Char) (a b : Nat) : List Char :=
  (l.drop a).take (b - a)

/-- The `Bet` box record (`class Bet`). -/
structure Bet where
  who : List Nat
  amount : Nat
  max_payline_index : Nat
  index : Nat
  claim_round : Nat
deriving DecidableEq, Repr

/-- The persistent state of the contract: the `bank_balances` box
(`class BankBalances`), the `owner` box, and the `bet` box map. -/
structure State where
  balance_available : Nat
  balance_total : Nat
  balance_locked : Nat
  balance_fuse : Bool
  owner : List Nat
  bets : List (List Nat × Bet)
deriving DecidableEq, Repr

/-- The host environment of a single call: transaction sender, attached
payment amount, current round, and the `op.sha256` / `op.Block.blk_seed`
primitives. -/
structure Env where
  sender : List Nat
  payment : Nat
  round : Nat
  sha256 : List Nat → List Nat
  blockSeed : Nat → List Nat

/-- First-match association-list lookup (`BoxMap` membership / read). -/
def lookupBet (k : List Nat) : List (List Nat × Bet) → Option Bet
  | [] => none
  | p :: rest => if p.1 = k then some p.2 else lookupBet k rest

/-- Removal of a key from the bet map (`del self.bet[bet_key]`). -/
def eraseBet (k : List Nat) : List (List Nat × Bet) → List (List Nat × Bet)
  | [] => []
  | p :: rest => if p.1 = k then eraseBet k rest else p :: eraseBet k rest

-- ---------------------------------------------------------------------------
-- BankManager: the six ledger primitives (contract.py lines 675-742)
-- ---------------------------------------------------------------------------

/-- `BankManager._increment_balance_available`. -/
def increment_balance_available (s : State) (amount : Nat) : Option State :=
  if s.balance_available + amount < U64 then
    some { s with balance_available := s.balance_available + amount }
  else none

/-- `BankManager._decrement_balance_available` (asserts
`balance_available >= amount`). -/
def decrement_balance_available (s : State) (amount : Nat) : Option State :=
  if amount ≤ s.balance_available then
    some { s with balance_available := s.balance_available - amount }
  else none

/-- `BankManager._increment_balance_locked`. -/
def increment_balance_locked (s : State) (amount : Nat) : Option State :=
  if s.balance_locked + amount < U64 then
    some { s with balance_locked := s.balance_locked + amount }
  else none

/-- `BankManager._decrement_balance_locked` (asserts
`balance_locked >= amount`). -/
def decrement_balance_locked (s : State) (amount : Nat) : Option State :=
  if amount ≤ s.balance_locked then
    some { s with balance_locked := s.balance_locked - amount }
  else none

/-- `BankManager._increment_balance_total`. -/
def increment_balance_total (s : State) (amount : Nat) : Option State :=
  if s.balance_total + amount < U64 then
    some { s with balance_total := s.balance_total + amount }
  else none

/-- `BankManager._decrement_balance_total` (asserts
`balance_total >= amount`). -/
def decrement_balance_total (s : State) (amount : Nat) : Option State :=
  if amount ≤ s.balance_total then
    some { s with balance_total := s.balance_total - amount }
  else none

/-- `BankManager._initialize_bank_manager_storage` applied to the default
(un-initialized) box: all balances zero, fuse set.  `owner` is the creator
address. -/
def bootstrappedState (creator : List Nat) : State :=
  { balance_available := 0
    balance_total := 0
    balance_locked := 0
    balance_fuse := true
    owner := creator
    bets := [] }

/-- `BankManager._deposit`: requires a positive attached payment, then
increments total and available by it. -/
def deposit (env : Env) (s : State) : Option State :=
  if 0 < env.payment then
    match increment_balance_total s env.payment with
    | none => none
    | some s1 => increment_balance_available s1 env.payment
  else none

/-- `BankManager.owner_deposit`: owner-gated; increments total and available
by `amount`. -/
def owner_deposit (env : Env) (s : State) (amount : Nat) : Option State :=
  if env.sender = s.owner then
    match increment_balance_total s amount with
    | none => none
    | some s1 => increment_balance_available s1 amount
  else none

/-- `BankManager._withdraw`: owner-gated; requires `0 < amount`,
`amount <= available`, `amount <= total`; pays the sender and decrements
available and total. -/
def withdraw (env : Env) (s : State) (amount : Nat) : Option State :=
  if env.sender = s.owner then
    if 0 < amount then
      if amount ≤ s.balance_available then
        if amount ≤ s.balance_total then
          match decrement_balance_available s amount with
          | none => none
          | some s1 => decrement_balance_total s1 amount
        else none
      else none
    else none
  else none

-- ---------------------------------------------------------------------------
-- ReelManager (contract.py lines 349-471), default configuration
-- ---------------------------------------------------------------------------

/-- The default 500-byte reel strip (`ReelManager._get_reels`). -/
def reelsString : String :=
  "_CCC__BD___D_____D_____D__DBDDCC_D_C_D__AD_D_CB_C_A_B___B_______DD___D_C_A_____B__C__D______D_______" ++
  "C_A_____C__DC_____B__B_CD_B___CD__DAD__C__C______CDD_______C_DA________DDD____CDDD___DB____BD__B____" ++
  "___D_D_B_________CD__D__C_C____B__A___CDB__BC_D__D__CD_C_________D___A_DC__B______B_DDDDD_____C_CDA_" ++
  "C___C_CDDDDC__D__CCB____D_B__B______D______BD_____A____D_D__AD__D__B___B__C____A____C_D_D___C__CDD__" ++
  "_________________CC___DC___DDB_BDADDC______B____C__D___D__CA_______CD__D_D_C_______BD_C_DBA_BDD__CD_"

/-- `ReelManager._get_reels` as a character list. -/
def get_reels : List Char := reelsString.data

/-- `ReelManager._get_reel_length` (box default 100). -/
def reel_length : Nat := 100

/-- `ReelManager._get_reel_count` (box default 5). -/
def reel_count : Nat := 5

/-- `ReelManager._get_reel_window_length` (box default 3). -/
def reel_window_length : Nat := 3

/-- `ReelManager._get_reel`: slice `index*len .. (index+1)*len` of the strip. -/
def get_reel (index : Nat) : List Char :=
  pySlice get_reels (index * reel_length) ((index + 1) * reel_length)

/-- `ReelManager._get_slot`: the 1-byte slice of reel `reel` at `index`. -/
def get_slot (reel index : Nat) : List Char :=
  pySlice get_reels (reel * reel_length + index) (reel * reel_length + index + 1)

/-- `ReelManager._get_reel_window`: three positions taken mod the reel
length; a single slice when they are consecutive, otherwise three
single-byte slices concatenated. -/
def get_reel_window (reel index : Nat) : List Char :=
  if (index + 0) % reel_length + 2 = (index + 2) % reel_length ∧
      (index + 0) % reel_length + 1 = (index + 1) % reel_length then
    pySlice (get_reel reel) ((index + 0) % reel_length)
      ((index + 2) % reel_length + 1)
  else
    pySlice (get_reel reel) ((index + 0) % reel_length)
        ((index + 0) % reel_length + 1)
      ++ pySlice (get_reel reel) ((index + 1) % reel_length)
        ((index + 1) % reel_length + 1)
      ++ pySlice (get_reel reel) ((index + 2) % reel_length)
        ((index + 2) % reel_length + 1)

/-- The public `ReelManager.get_reel_window` ABI method: asserts
`reel < reel_count` and then calls the subroutine (the window index is not
bounds-checked because of the `%` reduction). -/
def get_reel_window_abi (reel index : Nat) : Option (List Char) :=
  if reel < reel_count then some (get_reel_window reel index) else none

-- ---------------------------------------------------------------------------
-- SlotMachine: paylines, payout table, payline matcher
-- ---------------------------------------------------------------------------

/-- `SlotMachine._get_payline_count` (box default 20). -/
def payline_count : Nat := 20

/-- The default payline catalog (`SlotMachine._get_paylines`): 20 paylines
of 5 row selectors each, flattened to 100 entries. -/
def get_paylines : List Nat :=
  [1, 1, 1, 1, 1,
   0, 0, 0, 0, 0,
   2, 2, 2, 2, 2,
   0, 1, 2, 1, 0,
   2, 1, 0, 1, 2,
   0, 1, 1, 2, 2,
   2, 1, 1, 0, 0,
   0, 0, 1, 0, 0,
   2, 2, 1, 2, 2,
   0, 1, 2, 2, 1,
   2, 1, 0, 0, 1,
   1, 0, 0, 0, 1,
   1, 2, 2, 2, 1,
   0, 2, 0, 2, 0,
   2, 0, 2, 0, 2,
   0, 2, 1, 2, 0,
   2, 0, 1, 0, 2,
   0, 0, 1, 2, 2,
   2, 2, 1, 0, 0,
   1, 0, 1, 2, 1]

/-- `SlotMachine._get_payline`: reads five entries of the 100-entry
`paylines` static array starting at `index*5`; each static-array access is
bounds-checked by the ARC-4 runtime. -/
def get_payline (index : Nat) : Option (List Nat) :=
  if index * 5 + 4 < 100 then
    some [get_paylines.getD (index * 5) 0,
          get_paylines.getD (index * 5 + 1) 0,
          get_paylines.getD (index * 5 + 2) 0,
          get_paylines.getD (index * 5 + 3) 0,
          get_paylines.getD (index * 5 + 4) 0]
  else none

/-- `class PaylineMatch`: a symbol-occurrence count and the symbol. -/
structure PaylineMatch where
  count : Nat
  symbol : Char
deriving DecidableEq, Repr

/-- `SlotMachine._get_payout_multiplier`: the fixed payout table. -/
def get_payout_multiplier (pm : PaylineMatch) : Nat :=
  if pm.symbol = 'A' then
    if pm.count = 5 then 10000 else if pm.count = 4 then 1000
    else if pm.count = 3 then 200 else 0
  else if pm.symbol = 'B' then
    if pm.count = 5 then 1000 else if pm.count = 4 then 200
    else if pm.count = 3 then 60 else 0
  else if pm.symbol = 'C' then
    if pm.count = 5 then 500 else if pm.count = 4 then 100
    else if pm.count = 3 then 30 else 0
  else if pm.symbol = 'D' then
    if pm.count = 5 then 250 else if pm.count = 4 then 55
    else if pm.count = 3 then 10 else 0
  else 0

/-- `SlotMachine._get_grid_payline_symbols`: the five grid cells selected by
the payline, cell `i` being `grid[i*3 + payline[i]]` (each 1-byte grid slice
must be in bounds for `arc4.Byte.from_bytes` to succeed). -/
def get_grid_payline_symbols (grid : List Char) (payline_index : Nat) :
    Option (List Char) :=
  match get_payline payline_index with
  | some [p0, p1, p2, p3, p4] =>
    match grid.get? (0 * 3 + p0), grid.get? (1 * 3 + p1), grid.get? (2 * 3 + p2),
        grid.get? (3 * 3 + p3), grid.get? (4 * 3 + p4) with
    | some c0, some c1, some c2, some c3, some c4 => some [c0, c1, c2, c3, c4]
    | _, _, _, _, _ => none
  | _ => none

/-- The symbol-tally loop of `SlotMachine._match_payline`: one pass over the
payline symbols incrementing the counter of `A`, `B`, `C` or `D` (blanks
ignored). -/
def countSymbolsLoop : List Char → Nat × Nat × Nat × Nat → Nat × Nat × Nat × Nat
  | [], acc => acc
  | ch :: rest, (a, b, c, d) =>
    countSymbolsLoop rest
      (if ch = 'A' then (a + 1, b, c, d)
       else if ch = 'B' then (a, b + 1, c, d)
       else if ch = 'C' then (a, b, c + 1, d)
       else if ch = 'D' then (a, b, c, d + 1)
       else (a, b, c, d))

/-- One `if m_highest_payout_x > highest_payout` replacement step of
`SlotMachine._match_payline`: the running `(highest_count, highest_symbol,
highest_payout)` triple is replaced only when the candidate symbol's payout
multiplier (at its tallied count) is strictly greater. -/
def bestStep (best : Nat × Char × Nat) (count : Nat) (symbol : Char) :
    Nat × Char × Nat :=
  if get_payout_multiplier ⟨count, symbol⟩ > best.2.2 then
    (count, symbol, get_payout_multiplier ⟨count, symbol⟩)
  else best

/-- `SlotMachine._match_payline`: tally the four symbol counts over the
payline's five cells, then keep the (count, symbol) pair with the highest
payout multiplier — one `bestStep` per symbol in the order `A`, `B`, `C`,
`D`, starting from `(0, '_')` with payout 0. -/
def match_payline (grid : List Char) (payline_index : Nat) :
    Option PaylineMatch :=
  match get_grid_payline_symbols grid payline_index with
  | none => none
  | some symbols =>
    some (PaylineMatch.mk
      (bestStep (bestStep (bestStep (bestStep (0, '_', 0)
         (countSymbolsLoop symbols (0, 0, 0, 0)).1 'A')
         (countSymbolsLoop symbols (0, 0, 0, 0)).2.1 'B')
         (countSymbolsLoop symbols (0, 0, 0, 0)).2.2.1 'C')
         (countSymbolsLoop symbols (0, 0, 0, 0)).2.2.2 'D').1
      (bestStep (bestStep (bestStep (bestStep (0, '_', 0)
         (countSymbolsLoop symbols (0, 0, 0, 0)).1 'A')
         (countSymbolsLoop symbols (0, 0, 0, 0)).2.1 'B')
         (countSymbolsLoop symbols (0, 0, 0, 0)).2.2.1 'C')
         (countSymbolsLoop symbols (0, 0, 0, 0)).2.2.2 'D').2.1)

-- ---------------------------------------------------------------------------
-- Grid resolver (contract.py lines 1099-1167)
-- ---------------------------------------------------------------------------

/-- `SlotMachine._get_reel_tops`: five stop offsets, each the low 8 bytes of
`sha256(seed || str(k+1))` reduced modulo
`reel_length - (reel_window_length + 1)`. -/
def get_reel_tops (sha : List Nat → List Nat) (seed : List Nat) : List Nat :=
  [u64FromLast8 (sha (seed ++ [49])) % (reel_length - (reel_window_length + 1)),
   u64FromLast8 (sha (seed ++ [50])) % (reel_length - (reel_window_length + 1)),
   u64FromLast8 (sha (seed ++ [51])) % (reel_length - (reel_window_length + 1)),
   u64FromLast8 (sha (seed ++ [52])) % (reel_length - (reel_window_length + 1)),
   u64FromLast8 (sha (seed ++ [53])) % (reel_length - (reel_window_length + 1))]

/-- `SlotMachine._get_grid`: the 15-symbol grid, reel-major concatenation of
the five reel windows at the derived stop offsets. -/
def get_grid (sha : List Nat → List Nat) (seed : List Nat) : List Char :=
  get_reel_window 0 ((get_reel_tops sha seed).getD 0 0)
    ++ get_reel_window 1 ((get_reel_tops sha seed).getD 1 0)
    ++ get_reel_window 2 ((get_reel_tops sha seed).getD 2 0)
    ++ get_reel_window 3 ((get_reel_tops sha seed).getD 3 0)
    ++ get_reel_window 4 ((get_reel_tops sha seed).getD 4 0)

-- ---------------------------------------------------------------------------
-- SpinManager: parameters, bet key, spin (contract.py lines 827-1029)
-- ---------------------------------------------------------------------------

/-- `SpinManager._spin_params().max_extra_payment` (1 VOI). -/
def max_extra_payment : Nat := 1000000

/-- `SpinManager._spin_params().max_payout_multiplier` (10000x). -/
def max_payout_multiplier : Nat := 10000

/-- `SpinManager._spin_params().round_future_delta` (1 round). -/
def round_future_delta : Nat := 1

/-- `SpinManager._spin_params().min_bet_amount` (1 VOI). -/
def min_bet_amount : Nat := 1000000

/-- `SpinManager._spin_params().max_bet_amount` (2000 VOI). -/
def max_bet_amount : Nat := 2000000000

/-- `SpinManager._spin_params().min_bank_amount` (100k VOI). -/
def min_bank_amount : Nat := 100000000000

/-- `SpinManager._spin_cost` (50500). -/
def spin_cost : Nat := 50500

/-- `SpinManager._get_bet_key`: 32-byte address, then the big-endian 8-byte
encodings of amount, max payline index and selector index (56 bytes). -/
def get_bet_key (address : List Nat) (amount max_payline_index index : Nat) :
    List Nat :=
  address ++ u64be amount ++ u64be max_payline_index ++ u64be index

/-- `SpinManager._lockup_amount`: `bet_amount * max_payout_multiplier`
(note: independent of the number of paylines played). -/
def lockup_amount (bet_amount : Nat) : Nat :=
  bet_amount * max_payout_multiplier

/-- `SpinManager._spin`, assertion for assertion in source order; `none`
models an aborted (rolled-back) call.  Returns the new state and the bet
key. -/
def spin (env : Env) (s : State) (bet_amount max_payline_index index : Nat) :
    Option (State × List Nat) :=
  if bet_amount * (max_payline_index + 1) < U64 then
    if min_bet_amount ≤ bet_amount * (max_payline_index + 1) then
      if bet_amount * (max_payline_index + 1) ≤ max_bet_amount then
        if bet_amount * (max_payline_index + 1) ≤ env.payment then
          if spin_cost ≤ env.payment - bet_amount * (max_payline_index + 1) then
            if env.payment - bet_amount * (max_payline_index + 1)
                ≤ max_extra_payment then
              if min_bank_amount ≤ s.balance_total then
                match increment_balance_total s
                    (bet_amount * (max_payline_index + 1)) with
                | none => none
                | some s1 =>
                  match increment_balance_available s1
                      (bet_amount * (max_payline_index + 1)) with
                  | none => none
                  | some s2 =>
                    if bet_amount * max_payout_multiplier < U64 then
                      match increment_balance_locked s2 (lockup_amount bet_amount) with
                      | none => none
                      | some s3 =>
                        match decrement_balance_available s3
                            (lockup_amount bet_amount) with
                        | none => none
                        | some s4 =>
                          match lookupBet
                              (get_bet_key env.sender bet_amount max_payline_index index)
                              s4.bets with
                          | some _ => none
                          | none =>
                            if env.round + round_future_delta < U64 then
                              some ({ s4 with bets :=
                                        (get_bet_key env.sender bet_amount
                                           max_payline_index index,
                                         { who := env.sender
                                           amount := bet_amount
                                           max_payline_index := max_payline_index
                                           index := index
                                           claim_round :=
                                             env.round + round_future_delta })
                                          :: s4.bets },
                                    get_bet_key env.sender bet_amount
                                      max_payline_index index)
                            else none
                    else none
              else none
            else none
          else none
        else none
      else none
    else none
  else none

/-- The observable state after a `spin` call under the host's all-or-nothing
transaction boundary: the new state on success, the unchanged pre-state on
abort. -/
def spinStep (env : Env) (s : State) (bet_amount max_payline_index index : Nat) :
    State :=
  match spin env s bet_amount max_payline_index index with
  | some r => r.1
  | none => s

-- ---------------------------------------------------------------------------
-- SlotMachine._claim (contract.py lines 1480-1540)
-- ---------------------------------------------------------------------------

/-- The payline-evaluation loop of `_claim`: for `line_index` in
`0 .. lines-1` (ascending), match the payline, multiply the bet amount by
the payout multiplier, and accumulate strictly positive payouts. -/
def evalPaylinesLoop (grid : List Char) (amount : Nat) : Nat → Option Nat
  | 0 => some 0
  | n + 1 =>
    match evalPaylinesLoop grid amount n with
    | none => none
    | some acc =>
      match match_payline grid n with
      | none => none
      | some payline_match =>
        if amount * get_payout_multiplier payline_match < U64 then
          if 0 < amount * get_payout_multiplier payline_match then
            if acc + amount * get_payout_multiplier payline_match < U64 then
              some (acc + amount * get_payout_multiplier payline_match)
            else none
          else some acc
        else none

/-- The result of a successful `claim` call: the new state, the returned
payout, and the outbound payments `(receiver, amount)` submitted by the
call, in order. -/
structure ClaimResult where
  state : State
  payout : Nat
  payments : List (List Nat × Nat)
deriving DecidableEq, Repr

/-- `SlotMachine._claim`: look up the bet, release the full lockup
(`decrement_balance_locked` then `increment_balance_available`), derive the
grid from `sha256(block_seed(claim_round) || bet_key)`, sum the payline
payouts, delete the bet, pay the bettor the total payout (if positive) and
refund the spin cost to the caller.  Note that nothing in the body reads
the current round, and that the ledger's total and available are never
decremented by the payout. -/
def claim (env : Env) (s : State) (bet_key : List Nat) : Option ClaimResult :=
  match lookupBet bet_key s.bets with
  | none => none
  | some bet =>
    if bet.amount * max_payout_multiplier < U64 then
      match decrement_balance_locked s (lockup_amount bet.amount) with
      | none => none
      | some s1 =>
        match increment_balance_available s1 (lockup_amount bet.amount) with
        | none => none
        | some s2 =>
          match evalPaylinesLoop
              (get_grid env.sha256
                (env.sha256 (env.blockSeed bet.claim_round ++ bet_key)))
              bet.amount (bet.max_payline_index + 1) with
          | none => none
          | some total_payout =>
            some { state := { s2 with bets := eraseBet bet_key s2.bets }
                   payout := total_payout
                   payments :=
                     (if 0 < total_payout then [(bet.who, total_payout)] else [])
                       ++ [(env.sender, spin_cost)] }
    else none

/-- The observable state after a `claim` call under the host's
all-or-nothing transaction boundary. -/
def claimStep (env : Env) (s : State) (bet_key : List Nat) : State :=
  match claim env s bet_key with
  | some r => r.state
  | none => s

-- ---------------------------------------------------------------------------
-- Reachable bank states
-- ---------------------------------------------------------------------------

/-- Bank states reachable from bootstrap through completed (successful)
balance-mutating operations: `deposit`, `owner_deposit`, `withdraw`, `spin`
and `claim`. -/
inductive Reachable : State → Prop
  | bootstrap (creator : List Nat) : Reachable (bootstrappedState creator)
  | depositStep (env : Env) (s s' : State) :
      Reachable s → deposit env s = some s' → Reachable s'
  | ownerDepositStep (env : Env) (s : State) (amount : Nat) (s' : State) :
      Reachable s → owner_deposit env s amount = some s' → Reachable s'
  | withdrawStep (env : Env) (s : State) (amount : Nat) (s' : State) :
      Reachable s → withdraw env s amount = some s' → Reachable s'
  | spinSucc (env : Env) (s : State) (a m i : Nat) (s' : State) (k : List Nat) :
      Reachable s → spin env s a m i = some (s', k) → Reachable s'
  | claimSucc (env : Env) (s : State) (k : List Nat) (r : ClaimResult) :
      Reachable s → claim env s k = some r → Reachable r.state

-- ---------------------------------------------------------------------------
-- Concrete instances used by witnesses and counterexamples
-- ---------------------------------------------------------------------------

/-- A 32-byte mock digest whose low 8 bytes encode `t` big-endian. -/
def padTop (t : Nat) : List Nat := List.replicate 24 0 ++ u64be t

/-- A concrete stand-in for the host's `op.sha256` oracle.  It maps the five
domain-separated reel-top queries (whose inputs end in the ASCII digits
`'1'`..`'5'`) to digests encoding the stop offsets 39, 1, 33, 49 and 32 —
offsets at which the middle row of every reel shows symbol `A` — and
everything else to the zero digest. -/
def mockSha (l : List Nat) : List Nat :=
  match l.getLast? with
  | some 49 => padTop 39
  | some 50 => padTop 1
  | some 51 => padTop 33
  | some 52 => padTop 49
  | some 53 => padTop 32
  | _ => List.replicate 32 0

/-- A concrete claim-time environment built on `mockSha`. -/
def mockEnv : Env :=
  { sender := List.replicate 32 1
    payment := 0
    round := 7
    sha256 := mockSha
    blockSeed := fun _ => List.replicate 32 0 }

/-- The derived key of the concrete stored bet (bettor = 32 zero bytes,
amount 1, max payline index 0, selector 0). -/
def cexKey : List Nat := get_bet_key (List.replicate 32 0) 1 0 0

/-- The concrete stored bet. -/
def cexBet : Bet :=
  { who := List.replicate 32 0
    amount := 1
    max_payline_index := 0
    index := 0
    claim_round := 5 }

/-- A concrete pre-claim bank state holding `cexBet`, with the bet's
exposure (lockup `1 * 10000`) locked. -/
def cexState : State :=
  { balance_available := 0
    balance_total := 10000
    balance_locked := 10000
    balance_fuse := true
    owner := List.replicate 32 9
    bets := [(cexKey, cexBet)] }

/-- A concrete spin-time environment: payment `2*10^6 + 50500` covers an
expected payment of `2*10^6` (stake `10^6` on paylines 0 and 1) plus the
spin cost. -/
def spinEnv : Env :=
  { sender := List.replicate 32 2
    payment := 2000000 + 50500
    round := 1
    sha256 := mockSha
    blockSeed := fun _ => List.replicate 32 0 }

/-- A concrete pre-spin bank state at the minimum bank reserve. -/
def spinState : State :=
  { balance_available := 100000000000
    balance_total := 100000000000
    balance_locked := 0
    balance_fuse := true
    owner := List.replicate 32 9
    bets := [] }

-- ---------------------------------------------------------------------------
-- Characterizations of the ledger primitives
-- ---------------------------------------------------------------------------

theorem increment_balance_available_eq_some {s s' : State} {a : Nat} :
    increment_balance_available s a = some s' ↔
      s.balance_available + a < U64 ∧
        s' = { s with balance_available := s.balance_available + a } := by
  unfold increment_balance_available
  split <;> simp_all [eq_comm]

theorem decrement_balance_available_eq_some {s s' : State} {a : Nat} :
    decrement_balance_available s a = some s' ↔
      a ≤ s.balance_available ∧
        s' = { s with balance_available := s.balance_available - a } := by
  unfold decrement_balance_available
  split <;> simp_all [eq_comm]

theorem increment_balance_locked_eq_some {s s' : State} {a : Nat} :
    increment_balance_locked s a = some s' ↔
      s.balance_locked + a < U64 ∧
        s' = { s with balance_locked := s.balance_locked + a } := by
  unfold increment_balance_locked
  split <;> simp_all [eq_comm]

theorem decrement_balance_locked_eq_some {s s' : State} {a : Nat} :
    decrement_balance_locked s a = some s' ↔
      a ≤ s.balance_locked ∧
        s' = { s with balance_locked := s.balance_locked - a } := by
  unfold decrement_balance_locked
  split <;> simp_all [eq_comm]

theorem increment_balance_total_eq_some {s s' : State} {a : Nat} :
    increment_balance_total s a = some s' ↔
      s.balance_total + a < U64 ∧
        s' = { s with balance_total := s.balance_total + a } := by
  unfold increment_balance_total
  split <;> simp_all [eq_comm]

theorem decrement_balance_total_eq_some {s s' : State} {a : Nat} :
    decrement_balance_total s a = some s' ↔
      a ≤ s.balance_total ∧
        s' = { s with balance_total := s.balance_total - a } := by
  unfold decrement_balance_total
  split <;> simp_all [eq_comm]

-- ---------------------------------------------------------------------------
-- Soundness of spin and claim (what a successful call did to the state)
-- ---------------------------------------------------------------------------

/-- A successful `spin` returned the derived bet key, required that key to be
fresh, credited total and available with the expected payment, moved the
lockup `bet_amount * max_payout_multiplier` from available to locked, and
stored the bet. -/
theorem spin_sound {env : Env} {s : State} {a m i : Nat} {s' : State}
    {k : List Nat} (h : spin env s a m i = some (s', k)) :
    k = get_bet_key env.sender a m i ∧
    lookupBet (get_bet_key env.sender a m i) s.bets = none ∧
    s'.balance_total = s.balance_total + a * (m + 1) ∧
    s'.balance_available + a * max_payout_multiplier
      = s.balance_available + a * (m + 1) ∧
    a * max_payout_multiplier ≤ s.balance_available + a * (m + 1) ∧
    s'.balance_locked = s.balance_locked + a * max_payout_multiplier ∧
    s'.balance_fuse = s.balance_fuse ∧
    s'.owner = s.owner ∧
    s'.bets = (k, { who := env.sender, amount := a, max_payline_index := m,
                    index := i, claim_round := env.round + round_future_delta })
                :: s.bets := by
  unfold spin at h
  repeat' split at h
  any_goals exact Option.noConfusion h
  simp only [Option.some.injEq, Prod.mk.injEq] at h
  obtain ⟨rfl, rfl⟩ := h.symm
  simp_all [increment_balance_total_eq_some, increment_balance_available_eq_some,
    increment_balance_locked_eq_some, decrement_balance_available_eq_some,
    lockup_amount]

/-- A successful `claim` found the bet, released its full lockup from locked
into available, left total untouched, and deleted the bet. -/
theorem claim_sound {env : Env} {s : State} {bk : List Nat} {r : ClaimResult}
    (h : claim env s bk = some r) :
    ∃ bet, lookupBet bk s.bets = some bet ∧
      lockup_amount bet.amount ≤ s.balance_locked ∧
      r.state.balance_total = s.balance_total ∧
      r.state.balance_available
        = s.balance_available + lockup_amount bet.amount ∧
      r.state.balance_locked + lockup_amount bet.amount = s.balance_locked ∧
      r.state.balance_fuse = s.balance_fuse ∧
      r.state.owner = s.owner ∧
      r.state.bets = eraseBet bk s.bets := by
  unfold claim at h
  cases hbet : lookupBet bk s.bets with
  | none => rw [hbet] at h; exact Option.noConfusion h
  | some bet =>
    rw [hbet] at h
    refine ⟨bet, rfl, ?_⟩
    repeat' split at h
    any_goals exact Option.noConfusion h
    all_goals
      simp only [Option.some.injEq] at h
      obtain rfl := h.symm
      simp_all [decrement_balance_locked_eq_some,
        increment_balance_available_eq_some, lockup_amount]

/-- Looking up a key in the bet map after erasing that key finds nothing. -/
theorem lookupBet_eraseBet (k : List Nat) (l : List (List Nat × Bet)) :
    lookupBet k (eraseBet k l) = none := by
  induction l with
  | nil => rfl
  | cons p rest ih =>
    unfold eraseBet
    split
    · exact ih
    · unfold lookupBet
      simp_all

/-- C3: the ledger invariant `available + locked == total` holds in every
reachable bank state: it holds after bootstrap initialization, and each
completed balance-mutating operation (`deposit`, `owner_deposit`,
`withdraw`, `spin`, `claim`) preserves it. -/
theorem C3_ledger_invariant (s : State) (h : Reachable s) :
    s.balance_available + s.balance_locked = s.balance_total := by
  induction h with
  | bootstrap creator => simp [bootstrappedState]
  | depositStep env s s' hr hop ih =>
    unfold deposit at hop
    repeat' split at hop
    any_goals exact Option.noConfusion hop
    simp_all [increment_balance_total_eq_some, increment_balance_available_eq_some]
    omega
  | ownerDepositStep env s amount s' hr hop ih =>
    unfold owner_deposit at hop
    repeat' split at hop
    any_goals exact Option.noConfusion hop
    simp_all [increment_balance_total_eq_some, increment_balance_available_eq_some]
    omega
  | withdrawStep env s amount s' hr hop ih =>
    unfold withdraw at hop
    repeat' split at hop
    any_goals exact Option.noConfusion hop
    simp_all [decrement_balance_available_eq_some, decrement_balance_total_eq_some]
    omega
  | spinSucc env s a m i s' k hr hop ih =>
    obtain ⟨-, -, h1, h2, h3, h4, -, -, -⟩ := spin_sound hop
    omega
  | claimSucc env s k r hr hop ih =>
    obtain ⟨bet, -, h1, h2, h3, h4, -, -, -⟩ := claim_sound hop
    omega

/-- The environment of the owner's deposit used to build a concrete
reachable state. -/
def ownerEnv : Env :=
  { sender := List.replicate 32 9
    payment := 0
    round := 0
    sha256 := mockSha
    blockSeed := fun _ => List.replicate 32 0 }

/-- Witness for C3: the invariant, instantiated at the concrete reachable
state obtained by bootstrap, then an owner deposit of the minimum bank
reserve, then a successful spin. -/
theorem C3_ledger_invariant_witness :
    (spinStep spinEnv spinState 1000000 1 0).balance_available
      + (spinStep spinEnv spinState 1000000 1 0).balance_locked
      = (spinStep spinEnv spinState 1000000 1 0).balance_total :=
  C3_ledger_invariant _
    (Reachable.spinSucc spinEnv spinState 1000000 1 0 _
      (get_bet_key (List.replicate 32 2) 1000000 1 0)
      (Reachable.ownerDepositStep ownerEnv
        (bootstrappedState (List.replicate 32 9)) 100000000000 spinState
        (Reachable.bootstrap _) (by decide))
      (by decide))

/-- Counterexample for C4 as stated: the concrete spin of stake `10^6` on
paylines 0..1 (`m = 1`) succeeds, but `balance_locked` increases by
`stake * max_payout_multiplier = 10^10`, not by
`stake * (m+1) * max_payout_multiplier = 2 * 10^10` as the claim requires
(`_lockup_amount` ignores the number of paylines played). -/
theorem C4_counterexample :
    (spin spinEnv spinState 1000000 1 0).isSome = true ∧
    (spinStep spinEnv spinState 1000000 1 0).balance_locked
      = spinState.balance_locked + 1000000 * max_payout_multiplier ∧
    ¬ ((spinStep spinEnv spinState 1000000 1 0).balance_locked
        = spinState.balance_locked + 1000000 * (1 + 1) * max_payout_multiplier) := by
  decide

/-- C4 (amended): after every successful `spin(stake, m, _)`,
`balance_locked` increases by exactly `stake * max_payout_multiplier`
(independently of `m`), and the lock step decreases `balance_available` by
that same amount (so that, net of the expected-payment credit
`stake * (m+1)`, `available' + stake * max_payout_multiplier =
available + stake * (m+1)`). -/
theorem C4_lock_sizing {env : Env} {s : State} {a m i : Nat} {s' : State}
    {k : List Nat} (h : spin env s a m i = some (s', k)) :
    s'.balance_locked = s.balance_locked + a * max_payout_multiplier ∧
    s'.balance_available + a * max_payout_multiplier
      = s.balance_available + a * (m + 1) := by
  obtain ⟨-, -, -, h2, -, h4, -, -, -⟩ := spin_sound h
  exact ⟨h4, h2⟩

/-- Witness for C4 (amended), at the concrete successful spin of stake
`10^6` with `m = 1`. -/
theorem C4_lock_sizing_witness :
    (spinStep spinEnv spinState 1000000 1 0).balance_locked
        = spinState.balance_locked + 1000000 * max_payout_multiplier ∧
    (spinStep spinEnv spinState 1000000 1 0).balance_available
        + 1000000 * max_payout_multiplier
      = spinState.balance_available + 1000000 * (1 + 1) :=
  C4_lock_sizing
    (show spin spinEnv spinState 1000000 1 0
        = some (spinStep spinEnv spinState 1000000 1 0,
                get_bet_key (List.replicate 32 2) 1000000 1 0) by decide)

/-- C5: a failed `spin` call leaves the bank state observably unchanged
(the host's transaction boundary rolls back every partial ledger mutation),
and in particular a `spin` whose derived bet key already has a stored bet
always fails, leaving the balances exactly as before the call. -/
theorem C5_spin_failure_atomic (env : Env) (s : State) (a m i : Nat) :
    (spin env s a m i = none → spinStep env s a m i = s) ∧
    (lookupBet (get_bet_key env.sender a m i) s.bets ≠ none →
      spin env s a m i = none ∧ spinStep env s a m i = s) := by
  constructor
  · intro h
    simp [spinStep, h]
  · intro hdup
    have hnone : spin env s a m i = none := by
      cases hs : spin env s a m i with
      | none => rfl
      | some r =>
        obtain ⟨s', k⟩ := r
        obtain ⟨-, hlk, -⟩ := spin_sound hs
        exact absurd hlk hdup
    exact ⟨hnone, by simp [spinStep, hnone]⟩

/-- A bank state that would accept `spinEnv`'s spin, except that the spin's
derived bet key already holds a stored bet. -/
def dupState : State :=
  { spinState with
      bets := [(get_bet_key (List.replicate 32 2) 1000000 1 0,
                { who := List.replicate 32 2
                  amount := 1000000
                  max_payline_index := 1
                  index := 0
                  claim_round := 2 })] }

/-- Witness for C5: the duplicate-key spin on `dupState` (which passes every
earlier precondition) fails and leaves the state unchanged. -/
theorem C5_spin_failure_atomic_witness :
    spin spinEnv dupState 1000000 1 0 = none ∧
    spinStep spinEnv dupState 1000000 1 0 = dupState :=
  (C5_spin_failure_atomic spinEnv dupState 1000000 1 0).2 (by decide)

/-- C6: `claim` succeeds at most once per bet key — a successful claim
deletes the bet record, so no later lookup of the key finds a bet and a
second claim of the same key (under any environment) fails; and a claim of
a key that holds no bet fails, leaving the state unchanged (the not-found
check precedes every ledger mutation). -/
theorem C6_claim_at_most_once (env env' : Env) (s : State) (k : List Nat) :
    (∀ r, claim env s k = some r →
        lookupBet k r.state.bets = none ∧ claim env' r.state k = none) ∧
    (lookupBet k s.bets = none →
        claim env s k = none ∧ claimStep env s k = s) := by
  constructor
  · intro r hr
    obtain ⟨bet, -, -, -, -, -, -, -, hbets⟩ := claim_sound hr
    have hnone : lookupBet k r.state.bets = none := by
      rw [hbets]
      exact lookupBet_eraseBet k s.bets
    refine ⟨hnone, ?_⟩
    unfold claim
    rw [hnone]
  · intro h
    have hnone : claim env s k = none := by
      unfold claim
      rw [h]
    exact ⟨hnone, by simp [claimStep, hnone]⟩

/-- Witness for C6: the concrete successful claim of `cexKey` deletes the
bet, and claiming the same key again fails. -/
theorem C6_claim_at_most_once_witness :
    lookupBet cexKey (claimStep mockEnv cexState cexKey).bets = none ∧
    claim mockEnv (claimStep mockEnv cexState cexKey) cexKey = none :=
  (C6_claim_at_most_once mockEnv mockEnv cexState cexKey).1
    { state := claimStep mockEnv cexState cexKey
      payout := 10000
      payments := [(List.replicate 32 0, 10000), (List.replicate 32 1, 50500)] }
    (by decide)

/-- C1 (code behaviour at the failing input): the concrete claim of the
stored bet `cexBet` (stake 1, middle payline showing `AAAAA`, so payout
`p = 10000 > 0` with lock release `L = lockup_amount 1 = 10000`) succeeds
and transfers the payout to the bettor, yet the ledger keeps
`balance_total` unchanged (it is NOT decremented by `p`) and credits
`balance_available` with the full `L` (NOT with `L - p = 0`). -/
theorem C1_payout_not_debited :
    claim mockEnv cexState cexKey
      = some { state := { balance_available := 10000
                          balance_total := 10000
                          balance_locked := 0
                          balance_fuse := true
                          owner := List.replicate 32 9
                          bets := [] }
               payout := 10000
               payments := [(List.replicate 32 0, 10000),
                            (List.replicate 32 1, 50500)] } ∧
    ¬ ((claimStep mockEnv cexState cexKey).balance_total
        = cexState.balance_total - 10000) ∧
    ¬ ((claimStep mockEnv cexState cexKey).balance_available
        = cexState.balance_available + (10000 - 10000)) := by
  decide

/-- `_claim` never reads the current round, so its result is invariant
under changes of the round field of the environment. -/
theorem claim_round_independent (e : Env) (r : Nat) (s : State) (k : List Nat) :
    claim { e with round := r } s k = claim e s k := rfl

/-- The claim-time environment of C2: the current round is far beyond
`claim_round + MAX_CLAIM_ROUND_DELTA`. -/
def expiredEnv : Env := { mockEnv with round := 2005 }

/-- C2 (code behaviour at the failing input): with the current round 2005,
strictly beyond `cexBet.claim_round + MAX_CLAIM_ROUND_DELTA = 1005`, the
claim does NOT take an expiry path — it performs the ordinary settlement,
paying the bettor the full payout 10000 and returning it instead of 0.
Indeed `_claim` never reads the current round at all: its result is the
same under every round. -/
theorem C2_no_expiry_path :
    cexBet.claim_round + MAX_CLAIM_ROUND_DELTA < expiredEnv.round ∧
    claim expiredEnv cexState cexKey
      = some { state := { balance_available := 10000
                          balance_total := 10000
                          balance_locked := 0
                          balance_fuse := true
                          owner := List.replicate 32 9
                          bets := [] }
               payout := 10000
               payments := [(List.replicate 32 0, 10000),
                            (List.replicate 32 1, 50500)] } ∧
    ¬ ((claim expiredEnv cexState cexKey).map ClaimResult.payout = some 0) ∧
    ∀ r1 r2 : Nat,
      claim { expiredEnv with round := r1 } cexState cexKey
        = claim { expiredEnv with round := r2 } cexState cexKey := by
  refine ⟨by decide, by decide, by decide, fun r1 r2 => ?_⟩
  exact (claim_round_independent expiredEnv r1 cexState cexKey).trans
    (claim_round_independent expiredEnv r2 cexState cexKey).symm

-- ---------------------------------------------------------------------------
-- Payout table (C9)
-- ---------------------------------------------------------------------------

/-- C9: the payout table returns 0 for every count below 3 and for every
symbol outside {A,B,C,D} (in particular `multiplier('A', 2) = 0`), and at
each of the counts 3, 4, 5 all four symbols pay a nonzero multiplier with
A's the highest of the four and D's the lowest. -/
theorem C9_payout_table (sym : Char) (count : Nat) :
    (count < 3 → get_payout_multiplier ⟨count, sym⟩ = 0) ∧
    (sym ∉ (['A', 'B', 'C', 'D'] : List Char) →
      get_payout_multiplier ⟨count, sym⟩ = 0) ∧
    get_payout_multiplier ⟨2, 'A'⟩ = 0 ∧
    (∀ c, c = 3 ∨ c = 4 ∨ c = 5 →
      0 < get_payout_multiplier ⟨c, 'A'⟩ ∧ 0 < get_payout_multiplier ⟨c, 'B'⟩ ∧
      0 < get_payout_multiplier ⟨c, 'C'⟩ ∧ 0 < get_payout_multiplier ⟨c, 'D'⟩ ∧
      get_payout_multiplier ⟨c, 'B'⟩ < get_payout_multiplier ⟨c, 'A'⟩ ∧
      get_payout_multiplier ⟨c, 'C'⟩ < get_payout_multiplier ⟨c, 'A'⟩ ∧
      get_payout_multiplier ⟨c, 'D'⟩ < get_payout_multiplier ⟨c, 'A'⟩ ∧
      get_payout_multiplier ⟨c, 'D'⟩ < get_payout_multiplier ⟨c, 'B'⟩ ∧
      get_payout_multiplier ⟨c, 'D'⟩ < get_payout_multiplier ⟨c, 'C'⟩) := by
  refine ⟨?_, ?_, by decide, ?_⟩
  · intro hlt
    unfold get_payout_multiplier
    split_ifs <;> simp_all
  · intro hmem
    unfold get_payout_multiplier
    split_ifs <;> simp_all
  · intro c hc
    rcases hc with rfl | rfl | rfl <;> decide

/-- Witness for C9: `multiplier('A', 2) = 0`, the blank symbol pays 0, and
`multiplier('D', 5)` is nonzero. -/
theorem C9_payout_table_witness :
    get_payout_multiplier ⟨2, 'A'⟩ = 0 ∧
    get_payout_multiplier ⟨2, '_'⟩ = 0 ∧
    0 < get_payout_multiplier ⟨5, 'D'⟩ :=
  ⟨(C9_payout_table 'A' 2).1 (by decide),
   (C9_payout_table '_' 2).2.1 (by decide),
   ((C9_payout_table '_' 0).2.2.2 5 (by decide)).2.2.2.1⟩

-- ---------------------------------------------------------------------------
-- Reel windows (C8, C10)
-- ---------------------------------------------------------------------------

/-- Taking three elements is taking one element at each of the first three
positions, whatever the list's length. -/
theorem take_three_split (t : List Char) :
    t.take 3 = t.take 1 ++ (t.drop 1).take 1 ++ (t.drop 2).take 1 := by
  rcases t with _ | ⟨a, _ | ⟨b, _ | ⟨c, rest⟩⟩⟩ <;> rfl

/-- Both branches of `_get_reel_window` produce the concatenation of the
three single-byte slices at the three mod-reduced positions. -/
theorem get_reel_window_eq (reel idx : Nat) :
    get_reel_window reel idx =
      pySlice (get_reel reel) ((idx + 0) % reel_length)
          ((idx + 0) % reel_length + 1)
        ++ pySlice (get_reel reel) ((idx + 1) % reel_length)
          ((idx + 1) % reel_length + 1)
        ++ pySlice (get_reel reel) ((idx + 2) % reel_length)
          ((idx + 2) % reel_length + 1) := by
  unfold get_reel_window
  split
  case isTrue h =>
    obtain ⟨h3, h2⟩ := h
    rw [← h3, ← h2]
    simp only [pySlice, Nat.add_sub_cancel_left]
    rw [show (idx + 0) % reel_length + 2 + 1 - (idx + 0) % reel_length
          = 3 by omega]
    rw [← List.drop_drop, ← List.drop_drop]
    exact take_three_split _
  case isFalse h => rfl

/-- A single-byte slice of `_get_reel`'s strip segment is `_get_slot` of the
same position, for in-range positions. -/
theorem pySlice_get_reel_eq_get_slot (reel p : Nat) (hp : p < reel_length) :
    pySlice (get_reel reel) p (p + 1) = get_slot reel p := by
  unfold get_reel get_slot pySlice
  rw [show (reel + 1) * reel_length - reel * reel_length
        = reel_length by ring_nf; omega]
  rw [Nat.add_sub_cancel_left, List.drop_take, List.take_take]
  rw [show reel * reel_length + p + 1 - (reel * reel_length + p) = 1 by omega]
  rw [List.drop_drop]
  rw [show min 1 (reel_length - p) = 1 by omega]

/-- C8: for every reel index below the reel count and every offset (with no
upper bound), `get_reel_window` succeeds and returns exactly the three reel
slots at positions `offset % length`, `(offset+1) % length` and
`(offset+2) % length`; in particular at `offset = length - 1` it returns
the slots at `length-1`, `0` and `1`. -/
theorem C8_reel_window (reel index : Nat) (h : reel < reel_count) :
    get_reel_window_abi reel index
      = some (get_slot reel (index % reel_length)
          ++ get_slot reel ((index + 1) % reel_length)
          ++ get_slot reel ((index + 2) % reel_length)) ∧
    get_reel_window_abi reel (reel_length - 1)
      = some (get_slot reel (reel_length - 1) ++ get_slot reel 0
          ++ get_slot reel 1) := by
  have key : ∀ i : Nat, get_reel_window_abi reel i
      = some (get_slot reel (i % reel_length)
          ++ get_slot reel ((i + 1) % reel_length)
          ++ get_slot reel ((i + 2) % reel_length)) := by
    intro i
    unfold get_reel_window_abi
    rw [if_pos h, get_reel_window_eq]
    rw [pySlice_get_reel_eq_get_slot _ _ (Nat.mod_lt _ (by norm_num [reel_length]))]
    rw [pySlice_get_reel_eq_get_slot _ _ (Nat.mod_lt _ (by norm_num [reel_length]))]
    rw [pySlice_get_reel_eq_get_slot _ _ (Nat.mod_lt _ (by norm_num [reel_length]))]
    rw [Nat.add_zero]
  refine ⟨key index, ?_⟩
  have h99 := key (reel_length - 1)
  norm_num [reel_length] at h99 ⊢
  exact h99

/-- Witness for C8: reel 2 at the out-of-range offset 205 wraps to positions
5, 6, 7, and reel 0 at offset 99 wraps to positions 99, 0, 1. -/
theorem C8_reel_window_witness :
    get_reel_window_abi 2 205
      = some (get_slot 2 (205 % reel_length)
          ++ get_slot 2 ((205 + 1) % reel_length)
          ++ get_slot 2 ((205 + 2) % reel_length)) ∧
    get_reel_window_abi 0 (reel_length - 1)
      = some (get_slot 0 (reel_length - 1) ++ get_slot 0 0 ++ get_slot 0 1) :=
  ⟨(C8_reel_window 2 205 (by decide)).1, (C8_reel_window 0 0 (by decide)).2⟩

/-- When the three window positions fit below the reel length, the window is
the single consecutive slice (the first branch of `_get_reel_window`). -/
theorem get_reel_window_consecutive (reel idx : Nat)
    (h : idx + 2 < reel_length) :
    get_reel_window reel idx = pySlice (get_reel reel) idx (idx + 3) := by
  have h0 : (idx + 0) % reel_length = idx := Nat.mod_eq_of_lt (by omega)
  have h1 : (idx + 1) % reel_length = idx + 1 := Nat.mod_eq_of_lt (by omega)
  have h2 : (idx + 2) % reel_length = idx + 2 := Nat.mod_eq_of_lt (by omega)
  unfold get_reel_window
  rw [h0, h1, h2, if_pos ⟨rfl, rfl⟩]

/-- C10: for every hash oracle and every seed, each of the five reel-stop
offsets is strictly below `reel_length - (reel_window_length + 1)` (below
96 with the defaults), so the grid only ever reads reel positions up to
offset 97; consequently grid derivation always takes the consecutive-slice
branch of the reel-window read — the grid is the concatenation of the five
plain slices `reel_k[top_k .. top_k+3]` — and the last two positions of
each reel (offsets 98 and 99) are never read into any grid. -/
theorem C10_reel_tops_bounds (sha : List Nat → List Nat) (seed : List Nat) :
    (∀ t ∈ get_reel_tops sha seed,
      t < reel_length - (reel_window_length + 1) ∧ t + 2 ≤ 97) ∧
    get_grid sha seed
      = pySlice (get_reel 0) ((get_reel_tops sha seed).getD 0 0)
          ((get_reel_tops sha seed).getD 0 0 + 3)
        ++ pySlice (get_reel 1) ((get_reel_tops sha seed).getD 1 0)
          ((get_reel_tops sha seed).getD 1 0 + 3)
        ++ pySlice (get_reel 2) ((get_reel_tops sha seed).getD 2 0)
          ((get_reel_tops sha seed).getD 2 0 + 3)
        ++ pySlice (get_reel 3) ((get_reel_tops sha seed).getD 3 0)
          ((get_reel_tops sha seed).getD 3 0 + 3)
        ++ pySlice (get_reel 4) ((get_reel_tops sha seed).getD 4 0)
          ((get_reel_tops sha seed).getD 4 0 + 3) := by
  have hmod : ∀ x : Nat, x % (reel_length - (reel_window_length + 1)) + 2
      < reel_length := by
    intro x
    have := Nat.mod_lt x
      (show 0 < reel_length - (reel_window_length + 1) by
        norm_num [reel_length, reel_window_length])
    simp [reel_length, reel_window_length] at this ⊢
    omega
  constructor
  · intro t ht
    simp only [get_reel_tops, List.mem_cons, List.not_mem_nil, or_false] at ht
    have hb : ∀ x : Nat, x % (reel_length - (reel_window_length + 1))
        < reel_length - (reel_window_length + 1) ∧
        x % (reel_length - (reel_window_length + 1)) + 2 ≤ 97 := by
      intro x
      have := hmod x
      have h2 := Nat.mod_lt x
        (show 0 < reel_length - (reel_window_length + 1) by
          norm_num [reel_length, reel_window_length])
      simp [reel_length, reel_window_length] at h2 ⊢
      omega
    rcases ht with rfl | rfl | rfl | rfl | rfl <;> exact hb _
  · unfold get_grid
    simp only [get_reel_tops, List.getD, List.get?, Option.getD]
    rw [get_reel_window_consecutive _ _ (hmod _),
        get_reel_window_consecutive _ _ (hmod _),
        get_reel_window_consecutive _ _ (hmod _),
        get_reel_window_consecutive _ _ (hmod _),
        get_reel_window_consecutive _ _ (hmod _)]

/-- Witness for C10: the first reel-stop offset of the concrete mock oracle
(39) is within the bound. -/
theorem C10_reel_tops_bounds_witness :
    39 < reel_length - (reel_window_length + 1) ∧ 39 + 2 ≤ 97 :=
  (C10_reel_tops_bounds mockSha (List.replicate 32 0)).1 39 (by decide)

-- ---------------------------------------------------------------------------
-- Policy A (C7)
-- ---------------------------------------------------------------------------

/-- `l.get?` at an in-range position is `some` of the `getD` value. -/
theorem get?_eq_some_getD (l : List Char) (n : Nat) (h : n < l.length) :
    l.get? n = some (l.getD n '_') := by
  simp [List.getD_eq_getElem?_getD, List.get?_eq_getElem?,
    List.getElem?_eq_getElem h]

/-- Policy A as worded by the spec (§4.3): read the five grid cells selected
by the payline (cell = `column*3 + payline[column]`), tally the occurrences
of each symbol among A, B, C, D (blanks ignored — they are simply never
tallied), compute each symbol's payout multiplier at its total count, and
return the (count, symbol) pair with the highest multiplier, replacing only
on a strictly greater multiplier in the evaluation order A, B, C, D (so
ties resolve to the earliest symbol); if every symbol's multiplier is 0 the
initial pair `(0, '_')` survives.  This is the claim's reference
formulation, to be compared with the source-translated `match_payline`. -/
def policyA (grid : List Char) (payline_index : Nat) : PaylineMatch :=
  PaylineMatch.mk
    ((['A', 'B', 'C', 'D'].foldl
      (fun best sym =>
        if get_payout_multiplier
            ⟨((List.range 5).map (fun c =>
                grid.getD (c * 3 + get_paylines.getD (payline_index * 5 + c) 0)
                  '_')).count sym,
              sym⟩ > best.2.2 then
          (((List.range 5).map (fun c =>
              grid.getD (c * 3 + get_paylines.getD (payline_index * 5 + c) 0)
                '_')).count sym,
            sym,
            get_payout_multiplier
              ⟨((List.range 5).map (fun c =>
                  grid.getD (c * 3 + get_paylines.getD (payline_index * 5 + c) 0)
                    '_')).count sym,
                sym⟩)
        else best)
      (0, '_', 0)).1)
    ((['A', 'B', 'C', 'D'].foldl
      (fun best sym =>
        if get_payout_multiplier
            ⟨((List.range 5).map (fun c =>
                grid.getD (c * 3 + get_paylines.getD (payline_index * 5 + c) 0)
                  '_')).count sym,
              sym⟩ > best.2.2 then
          (((List.range 5).map (fun c =>
              grid.getD (c * 3 + get_paylines.getD (payline_index * 5 + c) 0)
                '_')).count sym,
            sym,
            get_payout_multiplier
              ⟨((List.range 5).map (fun c =>
                  grid.getD (c * 3 + get_paylines.getD (payline_index * 5 + c) 0)
                    '_')).count sym,
                sym⟩)
        else best)
      (0, '_', 0)).2.1)

/-- The tally loop of `_match_payline` computes the four `List.count`
tallies of A, B, C and D. -/
theorem countSymbolsLoop_eq (l : List Char) (a b c d : Nat) :
    countSymbolsLoop l (a, b, c, d)
      = (a + l.count 'A', b + l.count 'B', c + l.count 'C', d + l.count 'D') := by
  induction l generalizing a b c d with
  | nil => simp [countSymbolsLoop]
  | cons ch rest ih =>
    unfold countSymbolsLoop
    split_ifs with hA hB hC hD <;>
      simp_all [List.count_cons, ih] <;> omega

/-- C7: for every 15-byte grid and every payline index in range,
`match_payline` implements Policy A: it equals the spec-side `policyA`
reference formulation. -/
theorem C7_match_payline_policyA (grid : List Char) (li : Nat)
    (h20 : li < payline_count) (h15 : grid.length = 15) :
    match_payline grid li = some (policyA grid li) := by
  have hpl : get_payline li
      = some [get_paylines.getD (li * 5) 0, get_paylines.getD (li * 5 + 1) 0,
              get_paylines.getD (li * 5 + 2) 0, get_paylines.getD (li * 5 + 3) 0,
              get_paylines.getD (li * 5 + 4) 0] := by
    unfold get_payline
    rw [if_pos]
    simp [payline_count] at h20
    omega
  have hsel : ∀ j, j < 100 → get_paylines.getD j 0 ≤ 2 := by decide
  have hli : li ≤ 19 := by simp [payline_count] at h20; omega
  have hb0 : 0 * 3 + get_paylines.getD (li * 5) 0 < grid.length := by
    have := hsel (li * 5) (by omega); omega
  have hb1 : 1 * 3 + get_paylines.getD (li * 5 + 1) 0 < grid.length := by
    have := hsel (li * 5 + 1) (by omega); omega
  have hb2 : 2 * 3 + get_paylines.getD (li * 5 + 2) 0 < grid.length := by
    have := hsel (li * 5 + 2) (by omega); omega
  have hb3 : 3 * 3 + get_paylines.getD (li * 5 + 3) 0 < grid.length := by
    have := hsel (li * 5 + 3) (by omega); omega
  have hb4 : 4 * 3 + get_paylines.getD (li * 5 + 4) 0 < grid.length := by
    have := hsel (li * 5 + 4) (by omega); omega
  unfold match_payline get_grid_payline_symbols
  rw [hpl]
  dsimp only []
  rw [get?_eq_some_getD grid _ hb0, get?_eq_some_getD grid _ hb1,
      get?_eq_some_getD grid _ hb2, get?_eq_some_getD grid _ hb3,
      get?_eq_some_getD grid _ hb4]
  dsimp only []
  rw [countSymbolsLoop_eq]
  simp only [policyA, bestStep, List.foldl,
    show (List.range 5) = [0, 1, 2, 3, 4] from rfl, List.map, Nat.zero_add,
    Nat.add_zero, Nat.zero_mul, Nat.one_mul]

/-- The concrete grid produced by the mock oracle (`AAAAA` on the middle
row). -/
def cexGrid : List Char :=
  ['_', 'A', 'D', '_', 'A', '_', '_', 'A', '_', '_', 'A', '_', 'D', 'A', 'D']

/-- Witness for C7: the equivalence instantiated at the concrete grid and
payline 0. -/
theorem C7_match_payline_policyA_witness :
    match_payline cexGrid 0 = some (policyA cexGrid 0) :=
  C7_match_payline_policyA cexGrid 0 (by decide) (by decide)

end SlotMachine
